import Mathlib

/-!
Verification of the interaction-response layer of PUBG-BOT
(`src/module/interaction.py`).

The development shallowly embeds the code:

* `PVal` models JSON-ish wire values; a payload is an insertion-ordered
  key/value list, matching Python `dict` semantics for the small payloads
  built here.
* `InteractionContext._get_payload` is a line-by-line translation of the
  static payload builder (truthiness-based field omission included).
* `InteractionContext.send` / `.edit` / `.defer` are translated as pure
  functions from the two-flag state `(deferred, responded)` and the call
  arguments to an `Outcome`: an optional error, the post-state, the list
  of outbound HTTP calls issued (in order), and the list of attachment
  close invocations performed.  The HTTP transport is a parameter
  `httpOk : Call → Bool` saying which outbound calls succeed; a failing
  call models the `await` raising, which aborts the method body at that
  point (later statements, including the `close()` loop, do not run).
* `_allowed_mentions` and `_files_to_form` live in `module/message.py`,
  which is an external collaborator: the resolved allowed-mentions value
  is passed in as an opaque `am : Option PVal`, and the multipart form is
  modelled as the pair of the JSON payload and the attachment list.
* `SlashContext.__init__`'s option loop is translated as a fold over the
  raw options, writing typed slots into a Python-`dict`-like association
  list (`dictSet`: replace in place, else append).  Guild/user cache
  lookups are external collaborators, modelled as membership lookups.
-/

namespace PUBGBot

/-- A JSON-ish wire value appearing in an outbound payload. -/
inductive PVal where
  | str (s : String)
  | num (n : Int)
  | bool (b : Bool)
  | list (xs : List PVal)
  | dict (entries : List (String × PVal))

/-- Python truthiness of a wire value (`if value:`). -/
def PVal.truthy : PVal → Bool
  | .str s => !s.isEmpty
  | .num n => n != 0
  | .bool b => b
  | .list xs => !xs.isEmpty
  | .dict es => !es.isEmpty

/-- An outbound JSON payload: keys with values, in insertion order. -/
abbrev Payload := List (String × PVal)

/-- Python truthiness of an optional string (`None` and `""` are falsy). -/
def strOptTruthy : Option String → Bool
  | none => false
  | some s => !s.isEmpty

/-- Python truthiness of an optional list (`None` and `[]` are falsy). -/
def listOptTruthy {α : Type} : Option (List α) → Bool
  | none => false
  | some xs => !xs.isEmpty

/-- Python truthiness of an optional wire value. -/
def pvalOptTruthy : Option PVal → Bool
  | none => false
  | some v => v.truthy

/-- Attachments are identified by an opaque id; the binary stream is an
external resource whose only observable event here is `close()`. -/
abbrev FileId := Nat

/-- An external `discord.Embed`; only its serialized form (`to_dict`)
reaches the code under verification. -/
structure Embed where
  to_dict : PVal

/-- An external component object: either an `ActionRow` (serialized with
`to_all_dict`) or a single component (serialized with `to_dict`), as
dispatched by the `isinstance` check in `send`/`edit`. -/
inductive Component where
  | actionRow (all_dict : PVal)
  | single (d : PVal)

/-- Serialization of one component, mirroring
`i.to_all_dict() if isinstance(i, ActionRow) else i.to_dict()`. -/
def Component.serialize : Component → PVal
  | .actionRow d => d
  | .single d => d

/-- Modelled from the spec: `_files_to_form` (in `module/message.py`,
not under src/) combines the JSON payload with each attachment as a named
binary part, preserving order (spec section 4.2). -/
structure Form where
  payload : Payload
  files : List FileId

/-- One outbound HTTP call, tagged with the data the code hands to the
`HttpClient` method. -/
inductive Call where
  | post_defer_response (payload : Payload)
  | post_initial_response (payload : Payload)
  | get_initial_response
  | edit_initial_response (payload : Payload) (form : Option Form) (files : List FileId)
  | post_followup (payload : Payload) (form : Option Form) (files : List FileId)
  | edit_followup (message_id : String) (payload : Payload) (form : Option Form) (files : List FileId)
  | delete_initial_response
  | delete_followup (message_id : String)

/-- The mutable state of an `InteractionContext`: the two response flags. -/
structure St where
  deferred : Bool
  responded : Bool

/-- Errors an operation can surface: the synchronous `InvalidArgument`
validation error, or a transport failure raised by an outbound call. -/
inductive OpError where
  | invalidArgument
  | transport

/-- Observable outcome of one operation: optional error, the post-state
of the two flags, the outbound calls issued in order, and the attachment
close invocations performed in order. -/
structure Outcome where
  result : Option OpError
  state : St
  calls : List Call
  closes : List FileId

/-- The transport oracle under which every outbound call succeeds. -/
def httpAllOk : Call → Bool := fun _ => true

namespace InteractionContext

/-- Payload of the deferred acknowledgement: `{"type": t}` plus
`{"data": {"flags": 64}}` when hidden (`defer`, lines 79-83). -/
def deferPayload (t : Nat) (hidden : Bool) : Payload :=
  [("type", PVal.num t)]
    ++ (if hidden then [("data", PVal.dict [("flags", PVal.num 64)])] else [])

/-- Line-by-line translation of the static `_get_payload` builder
(lines 54-77): each field is emitted only when truthy, in source
insertion order; `hidden` becomes `flags = 1 << 6 = 64`. -/
def _get_payload (content : Option String) (tts : Bool) (embed : Option (List PVal))
    (hidden : Bool) (allowed_mentions : Option PVal) (components : Option (List PVal)) : Payload :=
  (if strOptTruthy content then [("content", PVal.str (content.getD ""))] else [])
    ++ (if tts then [("tts", PVal.bool tts)] else [])
    ++ (if listOptTruthy embed then [("embeds", PVal.list (embed.getD []))] else [])
    ++ (if pvalOptTruthy allowed_mentions then
          [("allowed_mentions", allowed_mentions.getD (PVal.dict []))] else [])
    ++ (if hidden then [("flags", PVal.num 64)] else [])
    ++ (if listOptTruthy components then [("components", PVal.list (components.getD []))] else [])

/-- Embed normalization in `send`/`edit` (lines 107-110): a single
`embed` is wrapped into a list, then every embed is serialized. -/
def normEmbeds (embed : Option Embed) (embeds : Option (List Embed)) : Option (List PVal) :=
  let embeds1 := match embed with
    | some e => some [e]
    | none => embeds
  embeds1.map (List.map Embed.to_dict)

/-- File normalization in `send`/`edit` (lines 111-112): `if file:` —
a `discord.File` object is always truthy, so any non-`None` single file
replaces the list. -/
def normFiles (file : Option FileId) (files : Option (List FileId)) : Option (List FileId) :=
  match file with
  | some f => some [f]
  | none => files

/-- Component normalization (lines 113-114). -/
def normComponents (components : Option (List Component)) : Option (List PVal) :=
  components.map (List.map Component.serialize)

/-- Arguments of `InteractionContext.send` (lines 88-99).
`am` (the `_allowed_mentions` resolution, an external collaborator) is
passed separately. -/
structure SendArgs where
  content : Option String
  tts : Bool
  embed : Option Embed
  embeds : Option (List Embed)
  file : Option FileId
  files : Option (List FileId)
  hidden : Bool
  components : Option (List Component)

/-- The JSON payload `send` builds (lines 106-124). -/
def sendPayload (a : SendArgs) (am : Option PVal) : Payload :=
  _get_payload a.content a.tts (normEmbeds a.embed a.embeds) a.hidden am
    (normComponents a.components)

/-- The effective attachment list after normalization (`None` behaves as
an empty list for truthiness). -/
def sendFilesL (a : SendArgs) : List FileId := (normFiles a.file a.files).getD []

/-- Truthiness of `files` at the `if files:` checks in `send`. -/
def sendFilesTruthy (a : SendArgs) : Bool := !(sendFilesL a).isEmpty

/-- The multipart form `send` builds (lines 126-129): present exactly
when the effective attachment list is truthy. -/
def sendForm (a : SendArgs) (am : Option PVal) : Option Form :=
  if sendFilesTruthy a then some ⟨sendPayload a am, sendFilesL a⟩ else none

/-- The close invocations the trailing loop performs on the success path
(lines 145-147). -/
def sendCloses (a : SendArgs) : List FileId :=
  if sendFilesTruthy a then sendFilesL a else []

/-- Translation of `InteractionContext.defer` (lines 79-86): post the
type-5 acknowledgement; on success set `deferred := true` (the flag is
only written after the `await` returns). -/
def defer (st : St) (hidden : Bool) (httpOk : Call → Bool) : Outcome :=
  let c := Call.post_defer_response (deferPayload 5 hidden)
  if httpOk c then ⟨none, { st with deferred := true }, [c], []⟩
  else ⟨some .transport, st, [c], []⟩

/-- Translation of `InteractionContext.send` (lines 88-148).  Mirrors the
source control flow: mutual-exclusion validation first (raising
`InvalidArgument` before any call); then, when not yet responded, an
unconditional defer whenever attachments are present, followed by the
edit-initial-response path if `deferred`, else the
post-initial-response + get-initial-response pair; once responded, a
single follow-up.  A transport failure aborts at the failing call, so
flag writes placed after it and the trailing `close()` loop are skipped. -/
def send (st : St) (a : SendArgs) (am : Option PVal) (httpOk : Call → Bool) : Outcome :=
  if a.file.isSome && a.files.isSome then ⟨some .invalidArgument, st, [], []⟩
  else if a.embed.isSome && a.embeds.isSome then ⟨some .invalidArgument, st, [], []⟩
  else
    if !st.responded then
      let d : Outcome :=
        if sendFilesTruthy a then defer st a.hidden httpOk
        else ⟨none, st, [], []⟩
      match d.result with
      | some e => ⟨some e, d.state, d.calls, []⟩
      | none =>
        if d.state.deferred then
          let c := Call.edit_initial_response (sendPayload a am) (sendForm a am) (sendFilesL a)
          if httpOk c then ⟨none, { d.state with responded := true }, d.calls ++ [c], sendCloses a⟩
          else ⟨some .transport, d.state, d.calls ++ [c], []⟩
        else
          let c1 := Call.post_initial_response (sendPayload a am)
          if httpOk c1 then
            if httpOk Call.get_initial_response then
              ⟨none, { d.state with responded := true },
                d.calls ++ [c1, Call.get_initial_response], sendCloses a⟩
            else ⟨some .transport, d.state, d.calls ++ [c1, Call.get_initial_response], []⟩
          else ⟨some .transport, d.state, d.calls ++ [c1], []⟩
    else
      let c := Call.post_followup (sendPayload a am) (sendForm a am) (sendFilesL a)
      if httpOk c then ⟨none, st, [c], sendCloses a⟩
      else ⟨some .transport, st, [c], []⟩

/-- Arguments of `InteractionContext.edit` (lines 150-160): like `send`
but with no `tts` and no `hidden` (its `_get_payload` call leaves both at
their falsy defaults). -/
structure EditArgs where
  content : Option String
  embed : Option Embed
  embeds : Option (List Embed)
  file : Option FileId
  files : Option (List FileId)
  components : Option (List Component)

/-- The JSON payload `edit` builds (lines 179-184). -/
def editPayload (a : EditArgs) (am : Option PVal) : Payload :=
  _get_payload a.content false (normEmbeds a.embed a.embeds) false am
    (normComponents a.components)

/-- The effective attachment list in `edit`. -/
def editFilesL (a : EditArgs) : List FileId := (normFiles a.file a.files).getD []

/-- Truthiness of `files` at the `if files:` checks in `edit`. -/
def editFilesTruthy (a : EditArgs) : Bool := !(editFilesL a).isEmpty

/-- The multipart form `edit` builds (lines 186-189). -/
def editForm (a : EditArgs) (am : Option PVal) : Option Form :=
  if editFilesTruthy a then some ⟨editPayload a am, editFilesL a⟩ else none

/-- The close invocations `edit` performs on the success path
(lines 197-199). -/
def editCloses (a : EditArgs) : List FileId :=
  if editFilesTruthy a then editFilesL a else []

/-- Translation of `InteractionContext.edit` (lines 150-200): validation,
payload/form construction, then one call routed on the message id
(`"@original"` to edit-initial-response, anything else to
edit-followup-by-id); the two flags are never touched. -/
def edit (st : St) (message_id : String) (a : EditArgs) (am : Option PVal)
    (httpOk : Call → Bool) : Outcome :=
  if a.file.isSome && a.files.isSome then ⟨some .invalidArgument, st, [], []⟩
  else if a.embed.isSome && a.embeds.isSome then ⟨some .invalidArgument, st, [], []⟩
  else
    let c := if message_id = "@original"
      then Call.edit_initial_response (editPayload a am) (editForm a am) (editFilesL a)
      else Call.edit_followup message_id (editPayload a am) (editForm a am) (editFilesL a)
    if httpOk c then ⟨none, st, [c], editCloses a⟩
    else ⟨some .transport, st, [c], []⟩

end InteractionContext

/-- The external client-side user cache (`client.get_user`): modelled as
a membership lookup on the ids the cache holds, returning the cached
object (opaque, identified by its id) or `None`. -/
structure Client where
  users : List Int

/-- Lookup in the client user cache. -/
def Client.get_user (c : Client) (v : PVal) : Option PVal :=
  match v with
  | .num n => if c.users.contains n then some (PVal.num n) else none
  | _ => none

/-- The external guild cache (`guild.get_member` / `get_channel` /
`get_role`): membership lookups on the cached ids. -/
structure Guild where
  members : List Int
  channels : List Int
  roles : List Int

/-- Lookup in the guild member cache. -/
def Guild.get_member (g : Guild) (v : PVal) : Option PVal :=
  match v with
  | .num n => if g.members.contains n then some (PVal.num n) else none
  | _ => none

/-- Lookup in the guild channel cache. -/
def Guild.get_channel (g : Guild) (v : PVal) : Option PVal :=
  match v with
  | .num n => if g.channels.contains n then some (PVal.num n) else none
  | _ => none

/-- Lookup in the guild role cache. -/
def Guild.get_role (g : Guild) (v : PVal) : Option PVal :=
  match v with
  | .num n => if g.roles.contains n then some (PVal.num n) else none
  | _ => none

/-- Guild resolution in `InteractionContext.__init__` (lines 28-33): a
present guild id is looked up in the client's guild cache, an absent one
yields no guild. -/
def resolveGuild (guild_id : Option Int) (get_guild : Int → Option Guild) : Option Guild :=
  match guild_id with
  | some gid => get_guild gid
  | none => none

namespace SlashContext

/-- One raw option object from the inbound `data.options` array:
`name`, `value`, and the numeric option-type tag. -/
structure RawOption where
  name : String
  value : PVal
  type : Nat

/-- A typed slot written into `self.options` by the dispatch in
`SlashContext.__init__` (lines 218-240). -/
inductive Slot where
  | strV (v : PVal)
  | intV (v : PVal)
  | boolV (b : Bool)
  | channelV (c : Option PVal)
  | roleV (r : Option PVal)
  | floatV (v : PVal)
  | rawV (v : PVal)

/-- Python `dict` assignment `d[k] = v`: replace the value in place when
the key exists (keeping its position), else append. -/
def dictSet {α : Type} (d : List (String × α)) (k : String) (v : α) : List (String × α) :=
  match d with
  | [] => [(k, v)]
  | (k1, v1) :: rest => if k1 = k then (k1, v) :: rest else (k1, v1) :: dictSet rest k v

/-- Python `dict` lookup `d[k]` as an option. -/
def lookupDict {α : Type} (d : List (String × α)) (k : String) : Option α :=
  match d with
  | [] => none
  | (k1, v) :: rest => if k1 = k then some v else lookupDict rest k

/-- The state the option loop threads: the `self.options` mapping and the
`self.member` attribute (unset until a type-6 option assigns it). -/
structure OptState where
  options : List (String × Slot)
  member : Option (Option PVal)

/-- Construction failure: the type-8 branch evaluates
`self.guild.get_role(value)` with no `None` guard, an `AttributeError`
when the context has no guild (line 236). -/
inductive BuildError where
  | noneGuildGetRole

/-- One iteration of the option loop (lines 218-240), mirroring the
`elif` chain: tags 3/4/5 write typed slots; tag 6 assigns `self.member`
from the guild cache (or the client cache when there is no guild) and
writes no slot; tag 7 writes a channel slot only when a guild is present
(otherwise the chain falls through to the raw default); tag 8 writes a
role slot, dereferencing the guild unguarded; tag 10 writes a float slot;
anything else stores the raw value. -/
def processOption (guild : Option Guild) (client : Client) (st : OptState)
    (o : RawOption) : Except BuildError OptState :=
  if o.type == 3 then .ok { st with options := dictSet st.options o.name (Slot.strV o.value) }
  else if o.type == 4 then .ok { st with options := dictSet st.options o.name (Slot.intV o.value) }
  else if o.type == 5 then
    .ok { st with options := dictSet st.options o.name (Slot.boolV o.value.truthy) }
  else if o.type == 6 then
    match guild with
    | some g => .ok { st with member := some (g.get_member o.value) }
    | none => .ok { st with member := some (client.get_user o.value) }
  else if o.type == 7 && guild.isSome then
    match guild with
    | some g => .ok { st with options := dictSet st.options o.name (Slot.channelV (g.get_channel o.value)) }
    | none => .ok st
  else if o.type == 8 then
    match guild with
    | some g => .ok { st with options := dictSet st.options o.name (Slot.roleV (g.get_role o.value)) }
    | none => .error BuildError.noneGuildGetRole
  else if o.type == 10 then .ok { st with options := dictSet st.options o.name (Slot.floatV o.value) }
  else .ok { st with options := dictSet st.options o.name (Slot.rawV o.value) }

/-- The option loop itself: fold `processOption` over the raw options,
aborting at the first raised error (the `for` body runs inside
`__init__`, so an exception escapes the constructor). -/
def slashOptionsGo (guild : Option Guild) (client : Client) (st : OptState) :
    List RawOption → Except BuildError OptState
  | [] => .ok st
  | o :: rest =>
    match processOption guild client st o with
    | .ok st1 => slashOptionsGo guild client st1 rest
    | .error e => .error e

/-- Option parsing of `SlashContext.__init__`, starting from the empty
mapping (line 217). -/
def slashOptions (guild : Option Guild) (client : Client) (opts : List RawOption) :
    Except BuildError OptState :=
  slashOptionsGo guild client ⟨[], none⟩ opts

/-- The slot one option would write into the mapping (`none` for the
type-6 branch, which writes `self.member` instead, and for the
unreachable guildless arm of guarded branches). -/
def slotOf (guild : Option Guild) (o : RawOption) : Option Slot :=
  if o.type == 3 then some (Slot.strV o.value)
  else if o.type == 4 then some (Slot.intV o.value)
  else if o.type == 5 then some (Slot.boolV o.value.truthy)
  else if o.type == 6 then none
  else if o.type == 7 && guild.isSome then
    match guild with
    | some g => some (Slot.channelV (g.get_channel o.value))
    | none => none
  else if o.type == 8 then
    match guild with
    | some g => some (Slot.roleV (g.get_role o.value))
    | none => none
  else if o.type == 10 then some (Slot.floatV o.value)
  else some (Slot.rawV o.value)

/-- One step of the last-occurrence-wins specification for a fixed
name: a slot-writing occurrence of the name overwrites the accumulator. -/
def stepSlot (guild : Option Guild) (acc : Option Slot) (o : RawOption) (n : String) : Option Slot :=
  if o.name = n then
    match slotOf guild o with
    | some s => some s
    | none => acc
  else acc

/-- Last-occurrence-wins specification of the final mapping at one name. -/
def lastSlot (guild : Option Guild) (opts : List RawOption) (n : String) : Option Slot :=
  opts.foldl (fun acc o => stepSlot guild acc o n) none

end SlashContext

/-- Recognizer for the deferred-acknowledgement call. -/
def isDeferCall : Call → Bool
  | .post_defer_response _ => true
  | _ => false

/-- A transport oracle under which the edit-initial-response call fails
and every other call succeeds. -/
def httpFailEditInitial : Call → Bool
  | .edit_initial_response _ _ _ => false
  | _ => true

/-- Concrete `send` arguments: a single attachment (file id 0), nothing
else supplied. -/
def oneFileArgs : InteractionContext.SendArgs :=
  ⟨none, false, none, none, some 0, none, false, none⟩

/-- Concrete `send` arguments: content only, no attachments. -/
def contentOnlyArgs : InteractionContext.SendArgs :=
  ⟨some "hi", false, none, none, none, none, false, none⟩

/-- Concrete `send` arguments supplying both `file` and `files`. -/
def conflictSendArgs : InteractionContext.SendArgs :=
  ⟨none, false, none, none, some 0, some [1], false, none⟩

/-- Concrete `edit` arguments: nothing supplied. -/
def emptyEditArgs : InteractionContext.EditArgs :=
  ⟨none, none, none, none, none, none⟩

/-- Concrete `edit` arguments supplying both `embed` and `embeds`. -/
def conflictEditArgs : InteractionContext.EditArgs :=
  ⟨none, some ⟨PVal.dict []⟩, some [], none, none, none⟩

/-- Two raw options with the same declared name and integer type
(tag 4), values 1 then 2. -/
def dupOptions : List SlashContext.RawOption :=
  [⟨"x", PVal.num 1, 4⟩, ⟨"x", PVal.num 2, 4⟩]

/-- A single raw option of role type (tag 8). -/
def roleOption : SlashContext.RawOption := ⟨"r", PVal.num 1, 8⟩

open InteractionContext

/-- C9: the payload builder applied to `content="hi"` and `hidden=true`
(all other inputs absent/default) produces a mapping containing exactly
the two keys `content = "hi"` and `flags = 64`, and no other keys. -/
theorem C9_payload_content_hi_hidden :
    _get_payload (some "hi") false none true none none
      = [("content", PVal.str "hi"), ("flags", PVal.num 64)] := rfl

/-- C6: whenever both the single-file and multi-file arguments, or both
the single-embed and multi-embed arguments, are supplied, `send` and
`edit` fail synchronously with `InvalidArgument`, issue no outbound call,
perform no close, and leave the two flags unchanged. -/
theorem C6_mutual_exclusion_invalid_argument (st : St) (sa : SendArgs) (ea : EditArgs)
    (mid : String) (am : Option PVal) (httpOk : Call → Bool)
    (hs : (sa.file.isSome && sa.files.isSome) = true
        ∨ (sa.embed.isSome && sa.embeds.isSome) = true)
    (he : (ea.file.isSome && ea.files.isSome) = true
        ∨ (ea.embed.isSome && ea.embeds.isSome) = true) :
    send st sa am httpOk = ⟨some .invalidArgument, st, [], []⟩
    ∧ edit st mid ea am httpOk = ⟨some .invalidArgument, st, [], []⟩ := by
  constructor
  · rcases hs with h | h
    · simp [send, h]
    · by_cases h1 : (sa.file.isSome && sa.files.isSome) = true
      · simp [send, h1]
      · simp [send, h1, h]
  · rcases he with h | h
    · simp [edit, h]
    · by_cases h1 : (ea.file.isSome && ea.files.isSome) = true
      · simp [edit, h1]
      · simp [edit, h1, h]

/-- C5: for every state of the two flags, `edit` with message id
`"@original"` issues the edit-initial-response call and `edit` with any
other id issues the edit-followup-by-id call, and in both cases the two
flags are left unchanged (the state component is preserved even without
the validity hypotheses and for any transport oracle). -/
theorem C5_edit_routing (st : St) (mid : String) (a : EditArgs) (am : Option PVal)
    (httpOk : Call → Bool)
    (hv1 : (a.file.isSome && a.files.isSome) = false)
    (hv2 : (a.embed.isSome && a.embeds.isSome) = false) :
    (edit st mid a am httpOk).state = st
    ∧ (mid = "@original" → (edit st mid a am httpOk).calls
        = [Call.edit_initial_response (editPayload a am) (editForm a am) (editFilesL a)])
    ∧ (mid ≠ "@original" → (edit st mid a am httpOk).calls
        = [Call.edit_followup mid (editPayload a am) (editForm a am) (editFilesL a)]) := by
  refine ⟨?_, ?_, ?_⟩
  · simp only [edit]
    split
    · rfl
    · split
      · rfl
      · split <;> split <;> rfl
  · intro hm
    simp [edit, hv1, hv2, hm, apply_ite Outcome.calls]
  · intro hm
    simp [edit, hv1, hv2, hm, apply_ite Outcome.calls]

/-- Witness for C5 at the fresh state with message id `"@original"`. -/
theorem C5_edit_routing_witness :
    (edit ⟨false, false⟩ "@original" emptyEditArgs none httpAllOk).state = (⟨false, false⟩ : St)
    ∧ ("@original" = "@original" →
        (edit ⟨false, false⟩ "@original" emptyEditArgs none httpAllOk).calls
          = [Call.edit_initial_response (editPayload emptyEditArgs none)
              (editForm emptyEditArgs none) (editFilesL emptyEditArgs)])
    ∧ ("@original" ≠ "@original" →
        (edit ⟨false, false⟩ "@original" emptyEditArgs none httpAllOk).calls
          = [Call.edit_followup "@original" (editPayload emptyEditArgs none)
              (editForm emptyEditArgs none) (editFilesL emptyEditArgs)]) :=
  C5_edit_routing ⟨false, false⟩ "@original" emptyEditArgs none httpAllOk rfl rfl

/-- Witness for C6: `file` and `files` both supplied to `send`, `embed`
and `embeds` both supplied to `edit`. -/
theorem C6_mutual_exclusion_invalid_argument_witness :
    send ⟨false, false⟩ conflictSendArgs none httpAllOk
      = ⟨some .invalidArgument, ⟨false, false⟩, [], []⟩
    ∧ edit ⟨false, false⟩ "@original" conflictEditArgs none httpAllOk
      = ⟨some .invalidArgument, ⟨false, false⟩, [], []⟩ :=
  C6_mutual_exclusion_invalid_argument ⟨false, false⟩ conflictSendArgs conflictEditArgs
    "@original" none httpAllOk (Or.inl rfl) (Or.inr rfl)

/-- C1: from the fresh state, `send` with no attachments issues exactly
one post-initial-response call followed by exactly one
get-initial-response fetch, no other outbound call, performs no close,
and leaves the state at `(deferred = false, responded = true)`. -/
theorem C1_fresh_send_no_attachments (a : SendArgs) (am : Option PVal)
    (hf : a.file = none) (hfs : a.files = none)
    (he : a.embed = none ∨ a.embeds = none) :
    send ⟨false, false⟩ a am httpAllOk
      = ⟨none, ⟨false, true⟩,
         [Call.post_initial_response (sendPayload a am), Call.get_initial_response], []⟩ := by
  have h1 : (a.file.isSome && a.files.isSome) = false := by simp [hf]
  have h2 : (a.embed.isSome && a.embeds.isSome) = false := by
    rcases he with he | he <;> simp [he]
  have hft : sendFilesTruthy a = false := by
    simp [sendFilesTruthy, sendFilesL, normFiles, hf, hfs]
  simp [send, h1, h2, hft, httpAllOk, sendCloses]

/-- Witness for C1 at `content = "hi"`. -/
theorem C1_fresh_send_no_attachments_witness :
    send ⟨false, false⟩ contentOnlyArgs none httpAllOk
      = ⟨none, ⟨false, true⟩,
         [Call.post_initial_response (sendPayload contentOnlyArgs none),
          Call.get_initial_response], []⟩ :=
  C1_fresh_send_no_attachments contentOnlyArgs none rfl rfl (Or.inl rfl)

/-- C2: from the fresh state, `send` with exactly one attachment issues
exactly the type-5 deferred-acknowledgement call and then the
edit-initial-response call carrying the multipart form, closes the
attachment, and leaves the state at `(deferred = true, responded = true)`. -/
theorem C2_fresh_send_one_attachment (a : SendArgs) (am : Option PVal) (f : FileId)
    (hf : a.file = some f ∧ a.files = none ∨ a.file = none ∧ a.files = some [f])
    (he : a.embed = none ∨ a.embeds = none) :
    send ⟨false, false⟩ a am httpAllOk
      = ⟨none, ⟨true, true⟩,
         [Call.post_defer_response (deferPayload 5 a.hidden),
          Call.edit_initial_response (sendPayload a am) (some ⟨sendPayload a am, [f]⟩) [f]],
         [f]⟩ := by
  have h2 : (a.embed.isSome && a.embeds.isSome) = false := by
    rcases he with he | he <;> simp [he]
  have h1 : (a.file.isSome && a.files.isSome) = false := by
    rcases hf with ⟨ha, hb⟩ | ⟨ha, hb⟩ <;> simp [ha, hb]
  have hfl : sendFilesL a = [f] := by
    rcases hf with ⟨ha, hb⟩ | ⟨ha, hb⟩ <;> simp [sendFilesL, normFiles, ha, hb]
  have hft : sendFilesTruthy a = true := by simp [sendFilesTruthy, hfl]
  simp [send, h1, h2, hft, httpAllOk, defer, sendForm, sendCloses, hfl]

/-- Witness for C2 at a single attachment with file id 0. -/
theorem C2_fresh_send_one_attachment_witness :
    send ⟨false, false⟩ oneFileArgs none httpAllOk
      = ⟨none, ⟨true, true⟩,
         [Call.post_defer_response (deferPayload 5 oneFileArgs.hidden),
          Call.edit_initial_response (sendPayload oneFileArgs none)
            (some ⟨sendPayload oneFileArgs none, [0]⟩) [0]],
         [0]⟩ :=
  C2_fresh_send_one_attachment oneFileArgs none 0 (Or.inl ⟨rfl, rfl⟩) (Or.inl rfl)

/-- C3 counterexample: at `(deferred = true, responded = false)`, `send`
with one attachment does issue an additional deferred-acknowledgement
call (the code defers whenever attachments are present and
`responded = false`, without checking `deferred`), contradicting the
claim that no additional defer call is issued there. -/
theorem C3_counterexample_defer_when_already_deferred :
    ((send ⟨true, false⟩ oneFileArgs none httpAllOk).calls.countP isDeferCall) = 1 := rfl

/-- C3 amended: whenever attachments are present and `responded = false`,
`send` always issues a defer call first — even when `deferred` is already
`true` — and then the edit-initial-response call, ending at
`(true, true)`; once `responded = true`, attachments go through a single
follow-up call with no defer and the flags are unchanged. -/
theorem C3_amended_defer_always_when_files_unresponded (st : St) (a : SendArgs)
    (am : Option PVal) (f : FileId) (fs : List FileId)
    (hfl : normFiles a.file a.files = some (f :: fs))
    (hv1 : (a.file.isSome && a.files.isSome) = false)
    (he : a.embed = none ∨ a.embeds = none) :
    (st.responded = false →
      send st a am httpAllOk
        = ⟨none, ⟨true, true⟩,
           [Call.post_defer_response (deferPayload 5 a.hidden),
            Call.edit_initial_response (sendPayload a am)
              (some ⟨sendPayload a am, f :: fs⟩) (f :: fs)],
           f :: fs⟩)
    ∧ (st.responded = true →
      send st a am httpAllOk
        = ⟨none, st,
           [Call.post_followup (sendPayload a am)
              (some ⟨sendPayload a am, f :: fs⟩) (f :: fs)],
           f :: fs⟩) := by
  have h2 : (a.embed.isSome && a.embeds.isSome) = false := by
    rcases he with he | he <;> simp [he]
  have hfl' : sendFilesL a = f :: fs := by simp [sendFilesL, hfl]
  have hft : sendFilesTruthy a = true := by simp [sendFilesTruthy, hfl']
  constructor
  · intro hr
    simp [send, hv1, h2, hr, hft, httpAllOk, defer, sendForm, sendCloses, hfl']
  · intro hr
    simp [send, hv1, h2, hr, hft, httpAllOk, sendForm, sendCloses, hfl']

/-- Witness for the amended C3, at `(deferred = true, responded = false)`
with one attachment. -/
theorem C3_amended_witness :
    ((⟨true, false⟩ : St).responded = false →
      send ⟨true, false⟩ oneFileArgs none httpAllOk
        = ⟨none, ⟨true, true⟩,
           [Call.post_defer_response (deferPayload 5 oneFileArgs.hidden),
            Call.edit_initial_response (sendPayload oneFileArgs none)
              (some ⟨sendPayload oneFileArgs none, 0 :: []⟩) (0 :: [])],
           0 :: []⟩)
    ∧ ((⟨true, false⟩ : St).responded = true →
      send ⟨true, false⟩ oneFileArgs none httpAllOk
        = ⟨none, ⟨true, false⟩,
           [Call.post_followup (sendPayload oneFileArgs none)
              (some ⟨sendPayload oneFileArgs none, 0 :: []⟩) (0 :: [])],
           0 :: []⟩) :=
  C3_amended_defer_always_when_files_unresponded ⟨true, false⟩ oneFileArgs none 0 []
    rfl rfl (Or.inl rfl)

/-- C4: once `responded = true`, every further `send` issues exactly one
follow-up call and leaves both flags unchanged. -/
theorem C4_send_after_responded (st : St) (a : SendArgs) (am : Option PVal)
    (hr : st.responded = true)
    (hv1 : (a.file.isSome && a.files.isSome) = false)
    (hv2 : (a.embed.isSome && a.embeds.isSome) = false) :
    send st a am httpAllOk
      = ⟨none, st,
         [Call.post_followup (sendPayload a am) (sendForm a am) (sendFilesL a)],
         sendCloses a⟩ := by
  simp [send, hr, hv1, hv2, httpAllOk]

/-- Witness for C4 at `(deferred = false, responded = true)`. -/
theorem C4_send_after_responded_witness :
    send ⟨false, true⟩ contentOnlyArgs none httpAllOk
      = ⟨none, ⟨false, true⟩,
         [Call.post_followup (sendPayload contentOnlyArgs none) (sendForm contentOnlyArgs none)
            (sendFilesL contentOnlyArgs)],
         sendCloses contentOnlyArgs⟩ :=
  C4_send_after_responded ⟨false, true⟩ contentOnlyArgs none rfl rfl rfl

/-- C7 (code bug): on a fresh context, `send` with one attachment whose
edit-initial-response call raises a transport failure issues the defer
and the failing edit call, surfaces the transport error — and performs
no close at all: the `close()` loop runs after the awaits with no
`finally`, so the attachment is never released on the failure path. -/
theorem C7_close_skipped_on_transport_failure :
    (send ⟨false, false⟩ oneFileArgs none httpFailEditInitial).result = some OpError.transport
    ∧ (send ⟨false, false⟩ oneFileArgs none httpFailEditInitial).closes = ([] : List FileId)
    ∧ (send ⟨false, false⟩ oneFileArgs none httpFailEditInitial).calls.length = 2 :=
  ⟨rfl, rfl, rfl⟩

open SlashContext

/-- Unfolding of `dictSet` on a nonempty dictionary. -/
theorem dictSet_cons {α : Type} (k1 : String) (v1 : α) (tl : List (String × α))
    (k : String) (v : α) :
    dictSet ((k1, v1) :: tl) k v
      = if k1 = k then (k1, v) :: tl else (k1, v1) :: dictSet tl k v := rfl

/-- Unfolding of `lookupDict` on a nonempty dictionary. -/
theorem lookupDict_cons {α : Type} (k1 : String) (v1 : α) (tl : List (String × α))
    (k : String) :
    lookupDict ((k1, v1) :: tl) k = if k1 = k then some v1 else lookupDict tl k := rfl

/-- Lookup after a Python-`dict` assignment: the written key now maps to
the new value, every other key is unchanged. -/
theorem lookupDict_dictSet {α : Type} (d : List (String × α)) (k n : String) (v : α) :
    lookupDict (dictSet d k v) n = if k = n then some v else lookupDict d n := by
  induction d with
  | nil => simp [dictSet, lookupDict]
  | cons hd tl ih =>
    obtain ⟨k1, v1⟩ := hd
    rw [dictSet_cons]
    by_cases hk : k1 = k
    · rw [if_pos hk, lookupDict_cons, lookupDict_cons]
      subst hk
      by_cases hn : k1 = n
      · rw [if_pos hn, if_pos hn]
      · rw [if_neg hn, if_neg hn, if_neg hn]
    · rw [if_neg hk, lookupDict_cons, lookupDict_cons, ih]
      split_ifs <;> simp_all

/-- Effect of one option-loop iteration on the mapping at one name: the
slot the option writes (if any) overwrites the previous binding of its
own name and leaves every other name unchanged. -/
theorem processOption_lookup (guild : Option Guild) (client : Client)
    (s0 s1 : OptState) (o : RawOption) (n : String)
    (h : processOption guild client s0 o = .ok s1) :
    lookupDict s1.options n = stepSlot guild (lookupDict s0.options n) o n := by
  by_cases h3 : (o.type == 3) = true
  · simp [processOption, h3] at h
    subst h
    simp [stepSlot, slotOf, h3, lookupDict_dictSet]
  by_cases h4 : (o.type == 4) = true
  · simp [processOption, h3, h4] at h
    subst h
    simp [stepSlot, slotOf, h3, h4, lookupDict_dictSet]
  by_cases h5 : (o.type == 5) = true
  · simp [processOption, h3, h4, h5] at h
    subst h
    simp [stepSlot, slotOf, h3, h4, h5, lookupDict_dictSet]
  by_cases h6 : (o.type == 6) = true
  · cases guild with
    | some g =>
      simp [processOption, h3, h4, h5, h6] at h
      subst h
      simp [stepSlot, slotOf, h3, h4, h5, h6]
    | none =>
      simp [processOption, h3, h4, h5, h6] at h
      subst h
      simp [stepSlot, slotOf, h3, h4, h5, h6]
  by_cases h7 : (o.type == 7 && guild.isSome) = true
  · cases guild with
    | some g =>
      have e7 : o.type = 7 := by simpa using h7
      simp [processOption, e7] at h
      subst h
      simp [stepSlot, slotOf, e7, lookupDict_dictSet]
    | none => simp at h7
  by_cases h8 : (o.type == 8) = true
  · have e8 : o.type = 8 := by simpa using h8
    cases guild with
    | some g =>
      simp [processOption, e8] at h
      subst h
      simp [stepSlot, slotOf, e8, lookupDict_dictSet]
    | none => simp [processOption, e8] at h
  by_cases h10 : (o.type == 10) = true
  · simp [processOption, h3, h4, h5, h6, h7, h8, h10] at h
    subst h
    simp [stepSlot, slotOf, h3, h4, h5, h6, h7, h8, h10, lookupDict_dictSet]
  · simp [processOption, h3, h4, h5, h6, h7, h8, h10] at h
    subst h
    simp [stepSlot, slotOf, h3, h4, h5, h6, h7, h8, h10, lookupDict_dictSet]

/-- Running the option loop from any start state: the final mapping at
one name is the fold of the per-option overwrite steps. -/
theorem slashOptionsGo_lookup (guild : Option Guild) (client : Client) (n : String)
    (opts : List RawOption) :
    ∀ s0 st, slashOptionsGo guild client s0 opts = .ok st →
      lookupDict st.options n
        = opts.foldl (fun acc o => stepSlot guild acc o n) (lookupDict s0.options n) := by
  induction opts with
  | nil =>
    intro s0 st h
    simp [slashOptionsGo] at h
    subst h
    simp
  | cons o rest ih =>
    intro s0 st h
    simp only [slashOptionsGo] at h
    cases hp : processOption guild client s0 o with
    | ok s1 =>
      simp only [hp] at h
      simp only [List.foldl_cons]
      rw [← processOption_lookup guild client s0 s1 o n hp]
      exact ih s1 st h
    | error e => simp [hp] at h

/-- C8 counterexample: feeding two integer options both named `"x"` with
values 1 then 2, the constructed mapping binds `"x"` to the slot of the
second occurrence — the last occurrence wins (Python `d[k] = v`
overwrites), not the first as the claim states. -/
theorem C8_counterexample_duplicate_name_last_wins :
    slashOptions none ⟨[]⟩ dupOptions
      = .ok ⟨[("x", Slot.intV (PVal.num 2))], none⟩
    ∧ Slot.intV (PVal.num 2) ≠ Slot.intV (PVal.num 1) := by
  refine ⟨rfl, fun h => ?_⟩
  injection h with h1
  injection h1 with h2
  exact absurd h2 (by decide)

/-- C8 amended: whenever construction succeeds, the options mapping holds
at most one slot per option name, and looking up any name yields exactly
the typed slot of the LAST slot-producing occurrence of that name
(user-typed options, tag 6, produce no slot — they set the member field
instead). -/
theorem C8_amended_options_last_occurrence_wins (guild : Option Guild) (client : Client)
    (opts : List RawOption) (st : OptState) (n : String)
    (h : slashOptions guild client opts = .ok st) :
    lookupDict st.options n = lastSlot guild opts n := by
  have hgo := slashOptionsGo_lookup guild client n opts ⟨[], none⟩ st h
  simpa [lastSlot, lookupDict] using hgo

/-- Witness for the amended C8 at the duplicate-name input. -/
theorem C8_amended_options_last_occurrence_wins_witness :
    lookupDict [("x", Slot.intV (PVal.num 2))] "x" = lastSlot none dupOptions "x" :=
  C8_amended_options_last_occurrence_wins none ⟨[]⟩ dupOptions
    ⟨[("x", Slot.intV (PVal.num 2))], none⟩ "x" rfl

/-- With no guild, every option branch other than the role branch
completes normally. -/
theorem processOption_noneGuild_ok (client : Client) (st : OptState) (o : RawOption)
    (h8 : (o.type == 8) = false) :
    ∃ st1, processOption none client st o = .ok st1 := by
  unfold processOption
  split_ifs <;> first | exact ⟨_, rfl⟩ | simp_all

/-- With no guild, the option loop raises the `AttributeError` of the
unguarded `self.guild.get_role(...)` as soon as it reaches a role-typed
option. -/
theorem slashOptionsGo_noneGuild_role (client : Client) (opts : List RawOption) :
    ∀ st, (∃ o ∈ opts, o.type = 8) →
      slashOptionsGo none client st opts = .error BuildError.noneGuildGetRole := by
  induction opts with
  | nil =>
    intro st h
    obtain ⟨o, ho, _⟩ := h
    cases ho
  | cons o rest ih =>
    intro st h
    by_cases h8 : (o.type == 8) = true
    · have herr : processOption none client st o = .error BuildError.noneGuildGetRole := by
        have e8 : o.type = 8 := by simpa using h8
        simp [processOption, e8]
      simp [slashOptionsGo, herr]
    · obtain ⟨st1, h1⟩ := processOption_noneGuild_ok client st o (by simpa using h8)
      have hrest : ∃ o1 ∈ rest, o1.type = 8 := by
        obtain ⟨o1, ho1, ht⟩ := h
        rcases List.mem_cons.mp ho1 with hq | hm
        · subst hq
          exact absurd (by simp [ht]) h8
        · exact ⟨o1, hm, ht⟩
      simp [slashOptionsGo, h1, ih st1 hrest]

/-- C10: constructing a `SlashContext` whose resolved guild is `None`
from a payload declaring any option of role type (tag 8) fails during
construction: the role branch dereferences the guild with no `None`
guard, so the option loop raises instead of returning a state. -/
theorem C10_role_option_without_guild (guild_id : Option Int) (get_guild : Int → Option Guild)
    (client : Client) (opts : List RawOption)
    (hg : resolveGuild guild_id get_guild = none)
    (h8 : ∃ o ∈ opts, o.type = 8) :
    slashOptions (resolveGuild guild_id get_guild) client opts
      = .error BuildError.noneGuildGetRole := by
  rw [hg]
  exact slashOptionsGo_noneGuild_role client opts ⟨[], none⟩ h8

/-- Witness for C10: an absent guild id and a single role option. -/
theorem C10_role_option_without_guild_witness :
    slashOptions (resolveGuild none (fun _ => none)) ⟨[]⟩ [roleOption]
      = .error BuildError.noneGuildGetRole :=
  C10_role_option_without_guild none (fun _ => none) ⟨[]⟩ [roleOption] rfl
    ⟨roleOption, List.mem_singleton.mpr rfl, rfl⟩

end PUBGBot
